import Mathlib

/-!
Shallow embedding of the `elastic` X-Pack SQL services
(`xpack_sql_query.go` and the SQL-translate service) and proofs about
their body serialization, URL construction and execution flow.

Go values are embedded as follows: `interface` values placed in the
request body become the inductive `Val`; the Go `map[string]interface`
request body becomes an association list built in the program's
insertion order (all keys inserted by the code are distinct, so the
association list determines the map); `url.Values` becomes an
association list of strings with `Set` semantics; a Go
`(value, error)` pair of returns becomes a Lean pair whose second
component is `Option GoErr`; the generic HTTP executor and the JSON
unmarshaller, which live outside this repository, are parameters.
-/

set_option autoImplicit false

namespace Elastic

/-- JSON-serializable values: the embedding of the Go interface values
that the services place into their request bodies. -/
inductive Val where
  | null : Val
  | str : String → Val
  | int : Int → Val
  | bool : Bool → Val
  | arr : List Val → Val
  | obj : List (String × Val) → Val

/-- Go `error` values are identified with their message. -/
abbrev GoErr := String

/-- A request body: the Go `map[string]interface` in insertion order. -/
abbrev Body := List (String × Val)

/-- Looks a key up in a request body (first match wins; the services
never insert a key twice, so this determines the Go map). -/
def lookupKey : Body → String → Option Val
  | [], _ => none
  | p :: rest, key => if p.1 = key then some p.2 else lookupKey rest key

/-- A filter predicate: the `Query` interface of the repository, an
opaque value determined by what its `Source()` call returns, namely a
serialized representation and an error. -/
structure Query where
  srcVal : Val
  srcErr : Option GoErr

/-- `Source()` of a filter predicate: returns its representation and
its error, as the `Query` interface promises. -/
def Query.Source (q : Query) : Val × Option GoErr := (q.srcVal, q.srcErr)

/-- Embedding of `PerformRequestOptions`: what the services hand to the
HTTP executor. -/
structure PerformRequestOptions where
  method : String
  path : String
  params : List (String × String)
  body : Option Body
  headers : List (String × String)

/-- Embedding of the executor's `*Response`: the raw response bytes. -/
structure HttpResponse where
  body : String

/-- The external HTTP executor collaborator (`Client.PerformRequest`):
returns a response and an error. -/
structure Client where
  performRequest : PerformRequestOptions → HttpResponse × Option GoErr

/-- `fmt.Sprint` applied to a dereferenced `*bool`. -/
def goBoolString (b : Bool) : String := if b then "true" else "false"

/-- `url.Values.Set`: replaces any binding of the key and adds the new
one. -/
def paramsSet (ps : List (String × String)) (k v : String) :
    List (String × String) :=
  (ps.filter (fun p => p.1 != k)) ++ [(k, v)]

/-- Observer for `url.Values`: the value bound to a key, if any. -/
def paramsGet : List (String × String) → String → Option String
  | [], _ => none
  | p :: rest, key => if p.1 = key then some p.2 else paramsGet rest key

/-- The serialization loop over the filter clauses (the `for` loop in
`Source` of both services): serializes each clause in order and stops
at the first clause whose `Source()` reports an error. -/
def serializeClauses : List Query → List Val × Option GoErr
  | [] => ([], none)
  | q :: qs =>
    match q.Source with
    | (_, some err) => ([], some err)
    | (v, none) =>
      match serializeClauses qs with
      | (_, some err) => ([], some err)
      | (vs, none) => (v :: vs, none)

/-- `XPackSqlQueryService` (from `xpack_sql_query.go`); field defaults
are the Go zero values a freshly constructed service carries. -/
structure XPackSqlQueryService where
  client : Client
  pretty : Option Bool := none
  human : Option Bool := none
  errorTrace : Option Bool := none
  filterPath : List String := []
  headers : List (String × String) := []
  filterClauses : List Query := []
  fetchSize : Int := 0
  cursor : String := ""
  sql : String := ""
  requestTimeout : String := ""
  pageTimeout : String := ""
  timeZone : String := ""
  fieldMultiValueLeniency : Bool := false

/-- `NewXPackSqlQueryService`. -/
def NewXPackSqlQueryService (client : Client) : XPackSqlQueryService :=
  { client := client }

/-- Setter `SQL`. -/
def XPackSqlQueryService.SQL (s : XPackSqlQueryService) (sql : String) :
    XPackSqlQueryService :=
  { s with sql := sql }

/-- Setter `Cursor`. -/
def XPackSqlQueryService.Cursor (s : XPackSqlQueryService) (cursor : String) :
    XPackSqlQueryService :=
  { s with cursor := cursor }

/-- Setter `Filter`: appends the given predicates. -/
def XPackSqlQueryService.Filter (s : XPackSqlQueryService)
    (filters : List Query) : XPackSqlQueryService :=
  { s with filterClauses := s.filterClauses ++ filters }

/-- Setter `FetchSize`. -/
def XPackSqlQueryService.FetchSize (s : XPackSqlQueryService) (size : Int) :
    XPackSqlQueryService :=
  { s with fetchSize := size }

/-- Setter `RequestTimeout`. -/
def XPackSqlQueryService.RequestTimeout (s : XPackSqlQueryService)
    (timeout : String) : XPackSqlQueryService :=
  { s with requestTimeout := timeout }

/-- Setter `PageTimeout`. -/
def XPackSqlQueryService.PageTimeout (s : XPackSqlQueryService)
    (timeout : String) : XPackSqlQueryService :=
  { s with pageTimeout := timeout }

/-- Setter `TimeZone`. -/
def XPackSqlQueryService.TimeZone (s : XPackSqlQueryService) (zone : String) :
    XPackSqlQueryService :=
  { s with timeZone := zone }

/-- Setter `SetFieldMultiValueLeniency`. -/
def XPackSqlQueryService.SetFieldMultiValueLeniency
    (s : XPackSqlQueryService) (leniency : Bool) : XPackSqlQueryService :=
  { s with fieldMultiValueLeniency := leniency }

/-- Setter `Pretty`. -/
def XPackSqlQueryService.Pretty (s : XPackSqlQueryService) (pretty : Bool) :
    XPackSqlQueryService :=
  { s with pretty := some pretty }

/-- Setter `Human`. -/
def XPackSqlQueryService.Human (s : XPackSqlQueryService) (human : Bool) :
    XPackSqlQueryService :=
  { s with human := some human }

/-- Setter `ErrorTrace`. -/
def XPackSqlQueryService.ErrorTrace (s : XPackSqlQueryService)
    (errorTrace : Bool) : XPackSqlQueryService :=
  { s with errorTrace := some errorTrace }

/-- Setter `FilterPath`. -/
def XPackSqlQueryService.FilterPath (s : XPackSqlQueryService)
    (filterPath : List String) : XPackSqlQueryService :=
  { s with filterPath := filterPath }

/-- The optional-field section of `Source` (lines 136-160 of
`xpack_sql_query.go`): the mandatory `query` key followed by each
optional field, inserted only when it differs from its zero value. -/
def XPackSqlQueryService.baseFields (s : XPackSqlQueryService) : Body :=
  let source : Body := [("query", Val.str s.sql)]
  let source := if 0 < s.fetchSize then
    source ++ [("fetch_size", Val.int s.fetchSize)] else source
  let source := if 0 < s.pageTimeout.length then
    source ++ [("page_timeout", Val.str s.pageTimeout)] else source
  let source := if 0 < s.requestTimeout.length then
    source ++ [("request_timeout", Val.str s.requestTimeout)] else source
  let source := if 0 < s.timeZone.length then
    source ++ [("time_zone", Val.str s.timeZone)] else source
  let source := if s.fieldMultiValueLeniency then
    source ++ [("field_multi_value_leniency",
      Val.bool s.fieldMultiValueLeniency)] else source
  source

/-- `XPackSqlQueryService.Source`: builds the request body. A non-empty
cursor short-circuits to a one-key body; otherwise a non-empty SQL text
is required and the body is the optional fields plus the filter section
(one clause inlined, several as an array, errors aborting). -/
def XPackSqlQueryService.Source (s : XPackSqlQueryService) :
    Option Body × Option GoErr :=
  if 0 < s.cursor.length then
    (some [("cursor", Val.str s.cursor)], none)
  else if s.sql.length = 0 ∧ s.cursor.length = 0 then
    (none, some "query and cursor must be not both empty")
  else
    let source := s.baseFields
    match s.filterClauses with
    | [] => (some source, none)
    | [q] =>
      match q.Source with
      | (_, some err) => (none, some err)
      | (v, none) => (some (source ++ [("filter", v)]), none)
    | q1 :: q2 :: rest =>
      match serializeClauses (q1 :: q2 :: rest) with
      | (_, some err) => (none, some err)
      | (vs, none) => (some (source ++ [("filter", Val.arr vs)]), none)

/-- `XPackSqlQueryService.buildURL`: fixed path `/_sql`, transport
flags, and the hardcoded `format=json` parameter; never an error. -/
def XPackSqlQueryService.buildURL (s : XPackSqlQueryService) :
    String × List (String × String) × Option GoErr :=
  let path := "/_sql"
  let params : List (String × String) := []
  let params := match s.pretty with
    | some v => paramsSet params "pretty" (goBoolString v)
    | none => params
  let params := match s.human with
    | some v => paramsSet params "human" (goBoolString v)
    | none => params
  let params := match s.errorTrace with
    | some v => paramsSet params "error_trace" (goBoolString v)
    | none => params
  let params := if 0 < s.filterPath.length then
    paramsSet params "filter_path" (String.intercalate "," s.filterPath)
  else params
  let params := paramsSet params "format" "json"
  (path, params, none)

/-- `XPackSqlQueryService.Validate`: always succeeds. -/
def XPackSqlQueryService.Validate (_s : XPackSqlQueryService) :
    Option GoErr := none

/-- Embedding of `Column` from the query response. -/
structure Column where
  name : String
  type : String

/-- Embedding of `XPackSqlQueryResponse`. -/
structure XPackSqlQueryResponse where
  columns : List Column
  rows : List (List Val)
  cursor : String

/-- `XPackSqlQueryService.Do`: validate, build URL, build body, perform
the request through the client, unmarshal the raw response bytes
(`unmarshal` stands for `json.Unmarshal`, external to the repository).
Each failing step returns a nil response and that step's error. -/
def XPackSqlQueryService.Do (s : XPackSqlQueryService)
    (unmarshal : String → XPackSqlQueryResponse × Option GoErr) :
    Option XPackSqlQueryResponse × Option GoErr :=
  match s.Validate with
  | some err => (none, some err)
  | none =>
    match s.buildURL with
    | (_, _, some err) => (none, some err)
    | (path, params, none) =>
      match s.Source with
      | (_, some err) => (none, some err)
      | (body, none) =>
        match s.client.performRequest
            { method := "POST", path := path, params := params,
              body := body, headers := s.headers } with
        | (_, some err) => (none, some err)
        | (res, none) =>
          match unmarshal res.body with
          | (_, some err) => (none, some err)
          | (ret, none) => (some ret, none)

/-- `XPackSqlTranslateService` (the unnamed translate source file);
field defaults are the Go zero values. It has no cursor field. -/
structure XPackSqlTranslateService where
  client : Client
  pretty : Option Bool := none
  human : Option Bool := none
  errorTrace : Option Bool := none
  filterPath : List String := []
  headers : List (String × String) := []
  filterClauses : List Query := []
  fetchSize : Int := 0
  sql : String := ""
  requestTimeout : String := ""
  pageTimeout : String := ""
  timeZone : String := ""
  fieldMultiValueLeniency : Bool := false

/-- `NewXPackSqlTranslateService`. -/
def NewXPackSqlTranslateService (client : Client) :
    XPackSqlTranslateService :=
  { client := client }

/-- Setter `SQL` (translate). -/
def XPackSqlTranslateService.SQL (s : XPackSqlTranslateService)
    (sql : String) : XPackSqlTranslateService :=
  { s with sql := sql }

/-- Setter `Filter` (translate): appends the given predicates. -/
def XPackSqlTranslateService.Filter (s : XPackSqlTranslateService)
    (filters : List Query) : XPackSqlTranslateService :=
  { s with filterClauses := s.filterClauses ++ filters }

/-- Setter `FetchSize` (translate). -/
def XPackSqlTranslateService.FetchSize (s : XPackSqlTranslateService)
    (size : Int) : XPackSqlTranslateService :=
  { s with fetchSize := size }

/-- Setter `RequestTimeout` (translate). -/
def XPackSqlTranslateService.RequestTimeout (s : XPackSqlTranslateService)
    (timeout : String) : XPackSqlTranslateService :=
  { s with requestTimeout := timeout }

/-- Setter `PageTimeout` (translate). -/
def XPackSqlTranslateService.PageTimeout (s : XPackSqlTranslateService)
    (timeout : String) : XPackSqlTranslateService :=
  { s with pageTimeout := timeout }

/-- Setter `TimeZone` (translate). -/
def XPackSqlTranslateService.TimeZone (s : XPackSqlTranslateService)
    (zone : String) : XPackSqlTranslateService :=
  { s with timeZone := zone }

/-- Setter `SetFieldMultiValueLeniency` (translate). -/
def XPackSqlTranslateService.SetFieldMultiValueLeniency
    (s : XPackSqlTranslateService) (leniency : Bool) :
    XPackSqlTranslateService :=
  { s with fieldMultiValueLeniency := leniency }

/-- Setter `Pretty` (translate). -/
def XPackSqlTranslateService.Pretty (s : XPackSqlTranslateService)
    (pretty : Bool) : XPackSqlTranslateService :=
  { s with pretty := some pretty }

/-- Setter `Human` (translate). -/
def XPackSqlTranslateService.Human (s : XPackSqlTranslateService)
    (human : Bool) : XPackSqlTranslateService :=
  { s with human := some human }

/-- Setter `ErrorTrace` (translate). -/
def XPackSqlTranslateService.ErrorTrace (s : XPackSqlTranslateService)
    (errorTrace : Bool) : XPackSqlTranslateService :=
  { s with errorTrace := some errorTrace }

/-- Setter `FilterPath` (translate). -/
def XPackSqlTranslateService.FilterPath (s : XPackSqlTranslateService)
    (filterPath : List String) : XPackSqlTranslateService :=
  { s with filterPath := filterPath }

/-- The optional-field section of the translate `Source` (lines 133-148
of the translate file). -/
def XPackSqlTranslateService.baseFields (s : XPackSqlTranslateService) :
    Body :=
  let source : Body := [("query", Val.str s.sql)]
  let source := if 0 < s.fetchSize then
    source ++ [("fetch_size", Val.int s.fetchSize)] else source
  let source := if 0 < s.pageTimeout.length then
    source ++ [("page_timeout", Val.str s.pageTimeout)] else source
  let source := if 0 < s.requestTimeout.length then
    source ++ [("request_timeout", Val.str s.requestTimeout)] else source
  let source := if 0 < s.timeZone.length then
    source ++ [("time_zone", Val.str s.timeZone)] else source
  let source := if s.fieldMultiValueLeniency then
    source ++ [("field_multi_value_leniency",
      Val.bool s.fieldMultiValueLeniency)] else source
  source

/-- `XPackSqlTranslateService.Source`: requires a non-empty SQL text,
then builds the optional fields plus the filter section. -/
def XPackSqlTranslateService.Source (s : XPackSqlTranslateService) :
    Option Body × Option GoErr :=
  if s.sql.length = 0 then
    (none, some "query must be not empty")
  else
    let source := s.baseFields
    match s.filterClauses with
    | [] => (some source, none)
    | [q] =>
      match q.Source with
      | (_, some err) => (none, some err)
      | (v, none) => (some (source ++ [("filter", v)]), none)
    | q1 :: q2 :: rest =>
      match serializeClauses (q1 :: q2 :: rest) with
      | (_, some err) => (none, some err)
      | (vs, none) => (some (source ++ [("filter", Val.arr vs)]), none)

/-- `XPackSqlTranslateService.buildURL`: fixed path `/_sql/translate`
and the transport flags only; no `format` parameter; never an error. -/
def XPackSqlTranslateService.buildURL (s : XPackSqlTranslateService) :
    String × List (String × String) × Option GoErr :=
  let path := "/_sql/translate"
  let params : List (String × String) := []
  let params := match s.pretty with
    | some v => paramsSet params "pretty" (goBoolString v)
    | none => params
  let params := match s.human with
    | some v => paramsSet params "human" (goBoolString v)
    | none => params
  let params := match s.errorTrace with
    | some v => paramsSet params "error_trace" (goBoolString v)
    | none => params
  let params := if 0 < s.filterPath.length then
    paramsSet params "filter_path" (String.intercalate "," s.filterPath)
  else params
  (path, params, none)

/-- `XPackSqlTranslateService.Validate`: always succeeds. -/
def XPackSqlTranslateService.Validate (_s : XPackSqlTranslateService) :
    Option GoErr := none

/-- `XPackSqlTranslateService.Do`: validate, build URL, build body,
perform the request; on success the raw response bytes are returned as
a string, on any failure the empty string and that error. -/
def XPackSqlTranslateService.Do (s : XPackSqlTranslateService) :
    String × Option GoErr :=
  match s.Validate with
  | some err => ("", some err)
  | none =>
    match s.buildURL with
    | (_, _, some err) => ("", some err)
    | (path, params, none) =>
      match s.Source with
      | (_, some err) => ("", some err)
      | (body, none) =>
        match s.client.performRequest
            { method := "POST", path := path, params := params,
              body := body, headers := s.headers } with
        | (_, some err) => ("", some err)
        | (res, none) => (res.body, none)

/-! ### Concrete clients, predicates and configurations used by
witnesses and counterexamples -/

/-- A client whose executor always succeeds with fixed bytes. -/
def clientOk : Client := ⟨fun _ => (⟨"resp-bytes"⟩, none)⟩

/-- A client whose executor always fails with a fixed transport error. -/
def clientDown : Client := ⟨fun _ => (⟨""⟩, some "transport down")⟩

/-- An unmarshaller that always succeeds with an empty response. -/
def unmarshalOk : String → XPackSqlQueryResponse × Option GoErr :=
  fun _ => (⟨[], [], ""⟩, none)

/-- A filter predicate that serializes successfully. -/
def filterOk : Query := ⟨Val.str "term-a", none⟩

/-- A second filter predicate that serializes successfully. -/
def filterOk2 : Query := ⟨Val.str "term-b", none⟩

/-- A filter predicate whose serialization fails. -/
def filterBroken : Query := ⟨Val.null, some "filter boom"⟩

/-- A failing predicate placed after `filterBroken`, to observe that the
first failure wins. -/
def filterLater : Query := ⟨Val.str "term-c", some "later boom"⟩

/-- A query service with a cursor and every other field set. -/
def qCursorBusy : XPackSqlQueryService :=
  { client := clientOk, cursor := "abc123", sql := "SELECT * FROM t",
    fetchSize := 7, pageTimeout := "5s", requestTimeout := "10s",
    timeZone := "UTC", fieldMultiValueLeniency := true,
    filterClauses := [filterBroken] }

/-- A query service with neither SQL nor cursor. -/
def qBothEmpty : XPackSqlQueryService := { client := clientOk }

/-- A translate service with no SQL. -/
def tEmpty : XPackSqlTranslateService := { client := clientOk }

/-- A query service with cursor set and a positive fetch size. -/
def qCursorAndFetch : XPackSqlQueryService :=
  { client := clientOk, cursor := "abc", fetchSize := 5 }

/-- A query service with a negative fetch size. -/
def qNegativeFetch : XPackSqlQueryService :=
  { client := clientOk, sql := "SELECT 1", fetchSize := -3 }

/-- A query service with every optional body field set. -/
def qAllOpts : XPackSqlQueryService :=
  { client := clientOk, sql := "SELECT 1", fetchSize := 7,
    pageTimeout := "2s", requestTimeout := "3s", timeZone := "UTC",
    fieldMultiValueLeniency := true }

/-- A translate service with only the SQL text set. -/
def tDefaultSql : XPackSqlTranslateService :=
  { client := clientOk, sql := "SELECT 2" }

/-- A query service with a cursor and one attached filter predicate. -/
def qCursorWithFilter : XPackSqlQueryService :=
  { client := clientOk, cursor := "abc", filterClauses := [filterOk] }

/-- A query service with one attached filter predicate. -/
def qOneFilter : XPackSqlQueryService :=
  { client := clientOk, sql := "SELECT 1", filterClauses := [filterOk] }

/-- A translate service with two attached filter predicates. -/
def tTwoFilters : XPackSqlTranslateService :=
  { client := clientOk, sql := "SELECT 1",
    filterClauses := [filterOk, filterOk2] }

/-- A query service whose executor fails. -/
def qTransport : XPackSqlQueryService :=
  { client := clientDown, sql := "SELECT 1" }

/-- A translate service whose executor fails. -/
def tTransport : XPackSqlTranslateService :=
  { client := clientDown, sql := "SELECT 1" }

/-- A query service with an ok, a broken and a late filter predicate. -/
def qShortCircuit : XPackSqlQueryService :=
  { client := clientOk, sql := "SELECT 1",
    filterClauses := [filterOk, filterBroken, filterLater] }

/-- A translate service with an ok, a broken and a late predicate. -/
def tShortCircuit : XPackSqlTranslateService :=
  { client := clientOk, sql := "SELECT 1",
    filterClauses := [filterOk, filterBroken, filterLater] }

/-- A translate service with transport flags set. -/
def tParamsEx : XPackSqlTranslateService :=
  { client := clientOk, sql := "SELECT 1", pretty := some true,
    filterPath := ["took", "hits"] }

/-! ### General lemmas about the helpers -/

theorem lookupKey_append_of_none (b1 b2 : Body) (k : String)
    (h : lookupKey b1 k = none) :
    lookupKey (b1 ++ b2) k = lookupKey b2 k := by
  induction b1 with
  | nil => rfl
  | cons p rest ih =>
    rw [List.cons_append]
    simp only [lookupKey] at h ⊢
    by_cases hp : p.1 = k
    · rw [if_pos hp] at h; exact absurd h (by simp)
    · rw [if_neg hp] at h ⊢; exact ih h

theorem lookupKey_append_of_some (b1 b2 : Body) (k : String) (v : Val)
    (h : lookupKey b1 k = some v) :
    lookupKey (b1 ++ b2) k = some v := by
  induction b1 with
  | nil => simp [lookupKey] at h
  | cons p rest ih =>
    rw [List.cons_append]
    simp only [lookupKey] at h ⊢
    by_cases hp : p.1 = k
    · rw [if_pos hp] at h ⊢; exact h
    · rw [if_neg hp] at h ⊢; exact ih h

theorem paramsGet_paramsSet (ps : List (String × String)) (k v : String) :
    paramsGet (paramsSet ps k v) k = some v := by
  unfold paramsSet
  induction ps with
  | nil => simp [paramsGet]
  | cons p rest ih =>
    rw [List.filter_cons]
    by_cases hp : p.1 = k
    · simpa [hp] using ih
    · simpa [hp, paramsGet] using ih

theorem serializeClauses_ok (qs : List Query) (vs : List Val)
    (h : serializeClauses qs = (vs, none)) :
    vs = qs.map (fun q => q.srcVal) := by
  induction qs generalizing vs with
  | nil =>
    simp only [serializeClauses, Prod.mk.injEq] at h
    simp [← h.1]
  | cons q rest ih =>
    simp only [serializeClauses, Query.Source] at h
    cases he : q.srcErr with
    | some e => rw [he] at h; simp at h
    | none =>
      rw [he] at h
      rcases hs : serializeClauses rest with ⟨vs2, err2⟩
      rw [hs] at h
      cases err2 with
      | some e => simp at h
      | none =>
        simp only [Prod.mk.injEq] at h
        rw [List.map_cons, ← ih vs2 hs, ← h.1]

theorem serializeClauses_err (pre : List Query) (bad : Query)
    (post : List Query) (e : GoErr)
    (hpre : ∀ q ∈ pre, q.srcErr = none) (hbad : bad.srcErr = some e) :
    serializeClauses (pre ++ bad :: post) = ([], some e) := by
  induction pre with
  | nil =>
    simp only [List.nil_append, serializeClauses, Query.Source]
    rw [hbad]
  | cons a rest ih =>
    have ha : a.srcErr = none := hpre a (by simp)
    have ihh := ih (fun q hq => hpre q (by simp [hq]))
    rw [List.cons_append]
    simp only [serializeClauses, Query.Source]
    rw [ha, ihh]

theorem queryBaseFields_lookup (s : XPackSqlQueryService) :
    lookupKey s.baseFields "query" = some (Val.str s.sql) ∧
    lookupKey s.baseFields "fetch_size" =
      (if 0 < s.fetchSize then some (Val.int s.fetchSize) else none) ∧
    lookupKey s.baseFields "page_timeout" =
      (if 0 < s.pageTimeout.length then some (Val.str s.pageTimeout)
        else none) ∧
    lookupKey s.baseFields "request_timeout" =
      (if 0 < s.requestTimeout.length then some (Val.str s.requestTimeout)
        else none) ∧
    lookupKey s.baseFields "time_zone" =
      (if 0 < s.timeZone.length then some (Val.str s.timeZone) else none) ∧
    lookupKey s.baseFields "field_multi_value_leniency" =
      (if s.fieldMultiValueLeniency
        then some (Val.bool s.fieldMultiValueLeniency) else none) ∧
    lookupKey s.baseFields "filter" = none := by
  simp only [XPackSqlQueryService.baseFields]
  split_ifs <;> simp_all [lookupKey]

theorem translateBaseFields_lookup
    (s : XPackSqlTranslateService) :
    lookupKey s.baseFields "query" = some (Val.str s.sql) ∧
    lookupKey s.baseFields "fetch_size" =
      (if 0 < s.fetchSize then some (Val.int s.fetchSize) else none) ∧
    lookupKey s.baseFields "page_timeout" =
      (if 0 < s.pageTimeout.length then some (Val.str s.pageTimeout)
        else none) ∧
    lookupKey s.baseFields "request_timeout" =
      (if 0 < s.requestTimeout.length then some (Val.str s.requestTimeout)
        else none) ∧
    lookupKey s.baseFields "time_zone" =
      (if 0 < s.timeZone.length then some (Val.str s.timeZone) else none) ∧
    lookupKey s.baseFields "field_multi_value_leniency" =
      (if s.fieldMultiValueLeniency
        then some (Val.bool s.fieldMultiValueLeniency) else none) ∧
    lookupKey s.baseFields "filter" = none := by
  simp only [XPackSqlTranslateService.baseFields]
  split_ifs <;> simp_all [lookupKey]

theorem querySource_ok_cases (s : XPackSqlQueryService)
    (body : Body) (hc : s.cursor.length = 0)
    (h : s.Source = (some body, none)) :
    (s.filterClauses = [] ∧ body = s.baseFields) ∨
    (∃ q, s.filterClauses = [q] ∧ q.srcErr = none ∧
      body = s.baseFields ++ [("filter", q.srcVal)]) ∨
    (∃ q1 q2 rest, s.filterClauses = q1 :: q2 :: rest ∧
      body = s.baseFields ++
        [("filter",
          Val.arr ((q1 :: q2 :: rest).map (fun q => q.srcVal)))]) := by
  have hcn : ¬ 0 < s.cursor.length := by omega
  simp only [XPackSqlQueryService.Source, if_neg hcn] at h
  by_cases hs : s.sql.length = 0 ∧ s.cursor.length = 0
  · rw [if_pos hs] at h; simp at h
  · rw [if_neg hs] at h
    cases hf : s.filterClauses with
    | nil =>
      rw [hf] at h
      simp only [Prod.mk.injEq, Option.some.injEq] at h
      exact Or.inl ⟨rfl, h.1.symm⟩
    | cons q tail =>
      cases tail with
      | nil =>
        rw [hf] at h
        cases he : q.srcErr with
        | some e => simp [Query.Source, he] at h
        | none =>
          simp only [Query.Source, he, Prod.mk.injEq, Option.some.injEq]
            at h
          exact Or.inr (Or.inl ⟨q, rfl, he, h.1.symm⟩)
      | cons q2 rest =>
        rw [hf] at h
        rcases hsc : serializeClauses (q :: q2 :: rest) with ⟨vs, err⟩
        cases err with
        | some e => simp [hsc] at h
        | none =>
          simp only [hsc, Prod.mk.injEq, Option.some.injEq] at h
          refine Or.inr (Or.inr ⟨q, q2, rest, rfl, ?_⟩)
          rw [← serializeClauses_ok _ _ hsc, ← h.1]

theorem translateSource_ok_cases
    (s : XPackSqlTranslateService) (body : Body)
    (h : s.Source = (some body, none)) :
    (s.filterClauses = [] ∧ body = s.baseFields) ∨
    (∃ q, s.filterClauses = [q] ∧ q.srcErr = none ∧
      body = s.baseFields ++ [("filter", q.srcVal)]) ∨
    (∃ q1 q2 rest, s.filterClauses = q1 :: q2 :: rest ∧
      body = s.baseFields ++
        [("filter",
          Val.arr ((q1 :: q2 :: rest).map (fun q => q.srcVal)))]) := by
  simp only [XPackSqlTranslateService.Source] at h
  by_cases hs : s.sql.length = 0
  · rw [if_pos hs] at h; simp at h
  · rw [if_neg hs] at h
    cases hf : s.filterClauses with
    | nil =>
      rw [hf] at h
      simp only [Prod.mk.injEq, Option.some.injEq] at h
      exact Or.inl ⟨rfl, h.1.symm⟩
    | cons q tail =>
      cases tail with
      | nil =>
        rw [hf] at h
        cases he : q.srcErr with
        | some e => simp [Query.Source, he] at h
        | none =>
          simp only [Query.Source, he, Prod.mk.injEq, Option.some.injEq]
            at h
          exact Or.inr (Or.inl ⟨q, rfl, he, h.1.symm⟩)
      | cons q2 rest =>
        rw [hf] at h
        rcases hsc : serializeClauses (q :: q2 :: rest) with ⟨vs, err⟩
        cases err with
        | some e => simp [hsc] at h
        | none =>
          simp only [hsc, Prod.mk.injEq, Option.some.injEq] at h
          refine Or.inr (Or.inr ⟨q, q2, rest, rfl, ?_⟩)
          rw [← serializeClauses_ok _ _ hsc, ← h.1]

theorem queryDo_eq (s : XPackSqlQueryService)
    (unmarshal : String → XPackSqlQueryResponse × Option GoErr) :
    s.Do unmarshal =
      (match s.Source with
       | (_, some err) => (none, some err)
       | (body, none) =>
         match s.client.performRequest
             { method := "POST", path := "/_sql",
               params := (s.buildURL).2.1, body := body,
               headers := s.headers } with
         | (_, some err) => (none, some err)
         | (res, none) =>
           match unmarshal res.body with
           | (_, some err) => (none, some err)
           | (ret, none) => (some ret, none)) := rfl

theorem translateDo_eq (s : XPackSqlTranslateService) :
    s.Do =
      (match s.Source with
       | (_, some err) => ("", some err)
       | (body, none) =>
         match s.client.performRequest
             { method := "POST", path := "/_sql/translate",
               params := (s.buildURL).2.1, body := body,
               headers := s.headers } with
         | (_, some err) => ("", some err)
         | (res, none) => (res.body, none)) := rfl

theorem lookupKey_append_skip (b1 fp : Body) (k : String)
    (hfp : lookupKey fp k = none) :
    lookupKey (b1 ++ fp) k = lookupKey b1 k := by
  cases hlk : lookupKey b1 k with
  | none => rw [lookupKey_append_of_none _ _ _ hlk, hfp]
  | some v => exact lookupKey_append_of_some _ _ _ _ hlk

theorem querySource_filter_err (s : XPackSqlQueryService)
    (pre post : List Query) (bad : Query) (e : GoErr)
    (hcur : s.cursor.length = 0) (hsql : 0 < s.sql.length)
    (hf : s.filterClauses = pre ++ bad :: post)
    (hpre : ∀ q ∈ pre, q.srcErr = none) (hbad : bad.srcErr = some e) :
    s.Source = (none, some e) := by
  have hcn : ¬ 0 < s.cursor.length := by omega
  have hsn : ¬ (s.sql.length = 0 ∧ s.cursor.length = 0) := by
    intro hx; omega
  simp only [XPackSqlQueryService.Source, if_neg hcn, if_neg hsn, hf]
  cases pre with
  | nil =>
    cases post with
    | nil => simp [Query.Source, hbad]
    | cons p ps =>
      have hsc : serializeClauses (bad :: p :: ps) = ([], some e) := by
        have := serializeClauses_err [] bad (p :: ps) e (by simp) hbad
        simpa using this
      simp [hsc]
  | cons a as =>
    have ha : a.srcErr = none := hpre a (by simp)
    cases as with
    | nil =>
      have hsc : serializeClauses (a :: bad :: post) = ([], some e) := by
        have := serializeClauses_err [a] bad post e (by simpa using ha)
          hbad
        simpa using this
      simp [hsc]
    | cons a2 as2 =>
      have hsc : serializeClauses (a :: a2 :: (as2 ++ bad :: post)) =
          ([], some e) := by
        have := serializeClauses_err (a :: a2 :: as2) bad post e hpre hbad
        simpa using this
      simp [hsc]

theorem translateSource_filter_err
    (s : XPackSqlTranslateService)
    (pre post : List Query) (bad : Query) (e : GoErr)
    (hsql : 0 < s.sql.length)
    (hf : s.filterClauses = pre ++ bad :: post)
    (hpre : ∀ q ∈ pre, q.srcErr = none) (hbad : bad.srcErr = some e) :
    s.Source = (none, some e) := by
  have hsn : ¬ s.sql.length = 0 := by omega
  simp only [XPackSqlTranslateService.Source, if_neg hsn, hf]
  cases pre with
  | nil =>
    cases post with
    | nil => simp [Query.Source, hbad]
    | cons p ps =>
      have hsc : serializeClauses (bad :: p :: ps) = ([], some e) := by
        have := serializeClauses_err [] bad (p :: ps) e (by simp) hbad
        simpa using this
      simp [hsc]
  | cons a as =>
    have ha : a.srcErr = none := hpre a (by simp)
    cases as with
    | nil =>
      have hsc : serializeClauses (a :: bad :: post) = ([], some e) := by
        have := serializeClauses_err [a] bad post e (by simpa using ha)
          hbad
        simpa using this
      simp [hsc]
    | cons a2 as2 =>
      have hsc : serializeClauses (a :: a2 :: (as2 ++ bad :: post)) =
          ([], some e) := by
        have := serializeClauses_err (a :: a2 :: as2) bad post e hpre hbad
        simpa using this
      simp [hsc]

/-! ### Claim theorems -/

/-- C1: whenever the cursor token is non-empty, `Source` of the query
service returns exactly the one-key body binding `cursor` to that
token — every other configured field, including filter predicates whose
serialization would fail, is ignored — and it returns no error. -/
theorem cursor_short_circuit : ∀ (s : XPackSqlQueryService),
    0 < s.cursor.length →
    s.Source = (some [("cursor", Val.str s.cursor)], none) := by
  intro s h
  simp only [XPackSqlQueryService.Source, if_pos h]

/-- Witness for C1: a service with a cursor, every other field set and
a failing filter predicate still yields the one-key cursor body. -/
theorem cursor_short_circuit_witness :
    0 < qCursorBusy.cursor.length ∧
    qCursorBusy.Source = (some [("cursor", Val.str "abc123")], none) :=
  ⟨by decide, cursor_short_circuit qCursorBusy (by decide)⟩

/-- C2 counterexample: with SQL and cursor both empty, the error the
code returns is "query and cursor must be not both empty", not the
claimed "query and cursor must not both be empty". -/
theorem query_both_empty_message_counterexample :
    (qBothEmpty.Source).2 ≠ some "query and cursor must not both be empty" ∧
    qBothEmpty.Source =
      (none, some "query and cursor must be not both empty") :=
  ⟨by decide, rfl⟩

/-- C2 (amended): with SQL and cursor both empty, `Source` of the query
service returns no body and the validation error "query and cursor must
be not both empty" (the code's exact wording); `Do` returns the same
error, and does so whatever executor the client carries, i.e. without
the HTTP executor being able to influence the outcome. -/
theorem query_both_empty_error : ∀ (s : XPackSqlQueryService)
    (unmarshal : String → XPackSqlQueryResponse × Option GoErr),
    s.sql.length = 0 → s.cursor.length = 0 →
    s.Source = (none, some "query and cursor must be not both empty") ∧
    s.Do unmarshal =
      (none, some "query and cursor must be not both empty") ∧
    ∀ c : Client,
      ({ s with client := c } : XPackSqlQueryService).Do unmarshal =
        (none, some "query and cursor must be not both empty") := by
  intro s u hsql hcur
  have hcn : ¬ 0 < s.cursor.length := by omega
  have hsrc : s.Source =
      (none, some "query and cursor must be not both empty") := by
    simp only [XPackSqlQueryService.Source, if_neg hcn]
    rw [if_pos
      (show s.sql.length = 0 ∧ s.cursor.length = 0 from ⟨hsql, hcur⟩)]
  have hdo : ∀ c : Client,
      ({ s with client := c } : XPackSqlQueryService).Do u =
        (none, some "query and cursor must be not both empty") := by
    intro c
    rw [queryDo_eq]
    have hsrc2 : ({ s with client := c } : XPackSqlQueryService).Source =
        (none, some "query and cursor must be not both empty") := hsrc
    rw [hsrc2]
  have hdos : s.Do u =
      (none, some "query and cursor must be not both empty") := by
    rw [queryDo_eq, hsrc]
  exact ⟨hsrc, hdos, hdo⟩

/-- Witness for C2: the all-defaults query service hits the validation
error in both `Source` and `Do`. -/
theorem query_both_empty_error_witness :
    qBothEmpty.sql.length = 0 ∧ qBothEmpty.cursor.length = 0 ∧
    qBothEmpty.Source =
      (none, some "query and cursor must be not both empty") ∧
    qBothEmpty.Do unmarshalOk =
      (none, some "query and cursor must be not both empty") :=
  ⟨rfl, rfl, (query_both_empty_error qBothEmpty unmarshalOk rfl rfl).1,
    (query_both_empty_error qBothEmpty unmarshalOk rfl rfl).2.1⟩

/-- C3 counterexample: with the SQL text empty, the error the translate
code returns is "query must be not empty", not the claimed
"query must not be empty". -/
theorem translate_empty_message_counterexample :
    (tEmpty.Source).2 ≠ some "query must not be empty" ∧
    tEmpty.Source = (none, some "query must be not empty") :=
  ⟨by decide, rfl⟩

/-- C3 (amended): with the SQL text empty, `Source` of the translate
service returns no body and the validation error "query must be not
empty" (the code's exact wording), for every configuration of the other
fields; there is no cursor field to fall back to. -/
theorem translate_empty_error : ∀ (s : XPackSqlTranslateService),
    s.sql.length = 0 →
    s.Source = (none, some "query must be not empty") := by
  intro s h
  simp only [XPackSqlTranslateService.Source, if_pos h]

/-- Witness for C3: the all-defaults translate service hits the
validation error. -/
theorem translate_empty_error_witness :
    tEmpty.sql.length = 0 ∧
    tEmpty.Source = (none, some "query must be not empty") :=
  ⟨rfl, translate_empty_error tEmpty rfl⟩

/-- C6: `buildURL` returns the fixed path, `/_sql` for the query
service and `/_sql/translate` for the translate service, and never an
error, for every configuration. -/
theorem buildURL_fixed_paths :
    (∀ s : XPackSqlQueryService,
      (s.buildURL).1 = "/_sql" ∧ (s.buildURL).2.2 = none) ∧
    (∀ t : XPackSqlTranslateService,
      (t.buildURL).1 = "/_sql/translate" ∧ (t.buildURL).2.2 = none) :=
  ⟨fun _ => ⟨rfl, rfl⟩, fun _ => ⟨rfl, rfl⟩⟩

/-- C7: the query-string parameters of the query service always carry
`format=json`, for every configuration of every field. -/
theorem format_always_json : ∀ s : XPackSqlQueryService,
    paramsGet (s.buildURL).2.1 "format" = some "json" := by
  intro s
  simp only [XPackSqlQueryService.buildURL]
  exact paramsGet_paramsSet _ _ _

/-- C4 counterexample: the claim fails as stated. With a cursor set,
a fetch size of 5 is not in the body `Source` produces; and with a
negative (hence non-zero) fetch size of -3, the key is absent too. -/
theorem optional_field_counterexample :
    (qCursorAndFetch.fetchSize = 5 ∧
      qCursorAndFetch.Source = (some [("cursor", Val.str "abc")], none) ∧
      lookupKey [("cursor", Val.str "abc")] "fetch_size" = none) ∧
    (qNegativeFetch.fetchSize = -3 ∧
      qNegativeFetch.Source =
        (some [("query", Val.str "SELECT 1")], none) ∧
      lookupKey [("query", Val.str "SELECT 1")] "fetch_size" = none) :=
  ⟨⟨rfl, rfl, rfl⟩, ⟨rfl, rfl, rfl⟩⟩

/-- C4 (amended): for both services, whenever `Source` returns a body
and — for the query service — the cursor is empty, each optional field
at its zero value is absent from that body, and each optional field the
code treats as set (positive fetch size, non-empty timeout and
time-zone strings, leniency true) is present under its key with exactly
the configured value. -/
theorem optional_field_sparseness :
    (∀ (s : XPackSqlQueryService) (body : Body),
      s.cursor.length = 0 → s.Source = (some body, none) →
      lookupKey body "fetch_size" =
        (if 0 < s.fetchSize then some (Val.int s.fetchSize) else none) ∧
      lookupKey body "page_timeout" =
        (if 0 < s.pageTimeout.length then some (Val.str s.pageTimeout)
          else none) ∧
      lookupKey body "request_timeout" =
        (if 0 < s.requestTimeout.length
          then some (Val.str s.requestTimeout) else none) ∧
      lookupKey body "time_zone" =
        (if 0 < s.timeZone.length then some (Val.str s.timeZone)
          else none) ∧
      lookupKey body "field_multi_value_leniency" =
        (if s.fieldMultiValueLeniency
          then some (Val.bool s.fieldMultiValueLeniency) else none)) ∧
    (∀ (t : XPackSqlTranslateService) (body : Body),
      t.Source = (some body, none) →
      lookupKey body "fetch_size" =
        (if 0 < t.fetchSize then some (Val.int t.fetchSize) else none) ∧
      lookupKey body "page_timeout" =
        (if 0 < t.pageTimeout.length then some (Val.str t.pageTimeout)
          else none) ∧
      lookupKey body "request_timeout" =
        (if 0 < t.requestTimeout.length
          then some (Val.str t.requestTimeout) else none) ∧
      lookupKey body "time_zone" =
        (if 0 < t.timeZone.length then some (Val.str t.timeZone)
          else none) ∧
      lookupKey body "field_multi_value_leniency" =
        (if t.fieldMultiValueLeniency
          then some (Val.bool t.fieldMultiValueLeniency) else none)) := by
  constructor
  · intro s body hc h
    have hbase := queryBaseFields_lookup s
    have hbody : ∃ fp : Body, body = s.baseFields ++ fp ∧
        ∀ k, k ≠ "filter" → lookupKey fp k = none := by
      rcases querySource_ok_cases s body hc h with
        ⟨_, hb⟩ | ⟨q, _, _, hb⟩ | ⟨q1, q2, rest, _, hb⟩
      · exact ⟨[], by simpa using hb, fun k _ => rfl⟩
      · exact ⟨[("filter", q.srcVal)], hb,
          fun k hk => by simp [lookupKey, Ne.symm hk]⟩
      · exact ⟨[("filter",
            Val.arr ((q1 :: q2 :: rest).map (fun q => q.srcVal)))], hb,
          fun k hk => by simp [lookupKey, Ne.symm hk]⟩
    rcases hbody with ⟨fp, hb, hfp⟩
    subst hb
    refine ⟨?_, ?_, ?_, ?_, ?_⟩
    · rw [lookupKey_append_skip _ _ _ (hfp _ (by decide))]
      exact hbase.2.1
    · rw [lookupKey_append_skip _ _ _ (hfp _ (by decide))]
      exact hbase.2.2.1
    · rw [lookupKey_append_skip _ _ _ (hfp _ (by decide))]
      exact hbase.2.2.2.1
    · rw [lookupKey_append_skip _ _ _ (hfp _ (by decide))]
      exact hbase.2.2.2.2.1
    · rw [lookupKey_append_skip _ _ _ (hfp _ (by decide))]
      exact hbase.2.2.2.2.2.1
  · intro t body h
    have hbase := translateBaseFields_lookup t
    have hbody : ∃ fp : Body, body = t.baseFields ++ fp ∧
        ∀ k, k ≠ "filter" → lookupKey fp k = none := by
      rcases translateSource_ok_cases t body h with
        ⟨_, hb⟩ | ⟨q, _, _, hb⟩ | ⟨q1, q2, rest, _, hb⟩
      · exact ⟨[], by simpa using hb, fun k _ => rfl⟩
      · exact ⟨[("filter", q.srcVal)], hb,
          fun k hk => by simp [lookupKey, Ne.symm hk]⟩
      · exact ⟨[("filter",
            Val.arr ((q1 :: q2 :: rest).map (fun q => q.srcVal)))], hb,
          fun k hk => by simp [lookupKey, Ne.symm hk]⟩
    rcases hbody with ⟨fp, hb, hfp⟩
    subst hb
    refine ⟨?_, ?_, ?_, ?_, ?_⟩
    · rw [lookupKey_append_skip _ _ _ (hfp _ (by decide))]
      exact hbase.2.1
    · rw [lookupKey_append_skip _ _ _ (hfp _ (by decide))]
      exact hbase.2.2.1
    · rw [lookupKey_append_skip _ _ _ (hfp _ (by decide))]
      exact hbase.2.2.2.1
    · rw [lookupKey_append_skip _ _ _ (hfp _ (by decide))]
      exact hbase.2.2.2.2.1
    · rw [lookupKey_append_skip _ _ _ (hfp _ (by decide))]
      exact hbase.2.2.2.2.2.1

/-- Witness for C4: a query service with every optional field set shows
each key present with the configured value, and a translate service
with only SQL set shows every optional key absent. -/
theorem optional_field_sparseness_witness :
    (lookupKey [("query", Val.str "SELECT 1"), ("fetch_size", Val.int 7),
        ("page_timeout", Val.str "2s"), ("request_timeout", Val.str "3s"),
        ("time_zone", Val.str "UTC"),
        ("field_multi_value_leniency", Val.bool true)] "fetch_size" =
        some (Val.int 7) ∧
      lookupKey [("query", Val.str "SELECT 1"), ("fetch_size", Val.int 7),
        ("page_timeout", Val.str "2s"), ("request_timeout", Val.str "3s"),
        ("time_zone", Val.str "UTC"),
        ("field_multi_value_leniency", Val.bool true)] "page_timeout" =
        some (Val.str "2s") ∧
      lookupKey [("query", Val.str "SELECT 1"), ("fetch_size", Val.int 7),
        ("page_timeout", Val.str "2s"), ("request_timeout", Val.str "3s"),
        ("time_zone", Val.str "UTC"),
        ("field_multi_value_leniency", Val.bool true)] "request_timeout" =
        some (Val.str "3s") ∧
      lookupKey [("query", Val.str "SELECT 1"), ("fetch_size", Val.int 7),
        ("page_timeout", Val.str "2s"), ("request_timeout", Val.str "3s"),
        ("time_zone", Val.str "UTC"),
        ("field_multi_value_leniency", Val.bool true)] "time_zone" =
        some (Val.str "UTC") ∧
      lookupKey [("query", Val.str "SELECT 1"), ("fetch_size", Val.int 7),
        ("page_timeout", Val.str "2s"), ("request_timeout", Val.str "3s"),
        ("time_zone", Val.str "UTC"),
        ("field_multi_value_leniency", Val.bool true)]
        "field_multi_value_leniency" = some (Val.bool true)) ∧
    (lookupKey [("query", Val.str "SELECT 2")] "fetch_size" = none ∧
      lookupKey [("query", Val.str "SELECT 2")] "page_timeout" = none ∧
      lookupKey [("query", Val.str "SELECT 2")] "request_timeout" = none ∧
      lookupKey [("query", Val.str "SELECT 2")] "time_zone" = none ∧
      lookupKey [("query", Val.str "SELECT 2")]
        "field_multi_value_leniency" = none) :=
  ⟨optional_field_sparseness.1 qAllOpts _ rfl rfl,
    optional_field_sparseness.2 tDefaultSql _ rfl⟩

/-- C5 counterexample: the claim fails as stated. With a cursor set and
one attached predicate, `Source` succeeds but the produced body has no
`filter` key at all. -/
theorem filter_arity_counterexample :
    qCursorWithFilter.filterClauses = [filterOk] ∧
    qCursorWithFilter.Source = (some [("cursor", Val.str "abc")], none) ∧
    lookupKey [("cursor", Val.str "abc")] "filter" = none :=
  ⟨rfl, rfl, rfl⟩

/-- C5 (amended): for both services, whenever `Source` returns a body
and — for the query service — the cursor is empty: with no attached
predicate the `filter` key is absent, with exactly one it holds that
predicate's own representation directly, and with two or more it holds
the sequence of their representations in attachment order. -/
theorem filter_arity :
    (∀ (s : XPackSqlQueryService) (body : Body),
      s.cursor.length = 0 → s.Source = (some body, none) →
      lookupKey body "filter" =
        (match s.filterClauses with
         | [] => none
         | [q] => some q.srcVal
         | qs => some (Val.arr (qs.map (fun q => q.srcVal))))) ∧
    (∀ (t : XPackSqlTranslateService) (body : Body),
      t.Source = (some body, none) →
      lookupKey body "filter" =
        (match t.filterClauses with
         | [] => none
         | [q] => some q.srcVal
         | qs => some (Val.arr (qs.map (fun q => q.srcVal))))) := by
  constructor
  · intro s body hc h
    have hbase := (queryBaseFields_lookup s).2.2.2.2.2.2
    rcases querySource_ok_cases s body hc h with
      ⟨hf, hb⟩ | ⟨q, hf, _, hb⟩ | ⟨q1, q2, rest, hf, hb⟩
    · subst hb; rw [hf]; simpa using hbase
    · subst hb; rw [hf, lookupKey_append_of_none _ _ _ hbase]
      simp [lookupKey]
    · subst hb; rw [hf, lookupKey_append_of_none _ _ _ hbase]
      simp [lookupKey]
  · intro t body h
    have hbase :=
      (translateBaseFields_lookup t).2.2.2.2.2.2
    rcases translateSource_ok_cases t body h with
      ⟨hf, hb⟩ | ⟨q, hf, _, hb⟩ | ⟨q1, q2, rest, hf, hb⟩
    · subst hb; rw [hf]; simpa using hbase
    · subst hb; rw [hf, lookupKey_append_of_none _ _ _ hbase]
      simp [lookupKey]
    · subst hb; rw [hf, lookupKey_append_of_none _ _ _ hbase]
      simp [lookupKey]

/-- Witness for C5: one attached predicate is serialized inline under
`filter`; two are serialized as the ordered sequence. -/
theorem filter_arity_witness :
    lookupKey [("query", Val.str "SELECT 1"),
        ("filter", Val.str "term-a")] "filter" =
      some (Val.str "term-a") ∧
    lookupKey [("query", Val.str "SELECT 1"),
        ("filter", Val.arr [Val.str "term-a", Val.str "term-b"])]
        "filter" =
      some (Val.arr [Val.str "term-a", Val.str "term-b"]) :=
  ⟨filter_arity.1 qOneFilter
      [("query", Val.str "SELECT 1"), ("filter", Val.str "term-a")]
      rfl rfl,
    filter_arity.2 tTwoFilters
      [("query", Val.str "SELECT 1"),
        ("filter", Val.arr [Val.str "term-a", Val.str "term-b"])] rfl⟩

/-- C8: when the HTTP executor fails on the request `Do` hands it, `Do`
returns exactly that error unchanged and the no-response value — `none`
for the query service, the empty string for the translate service. -/
theorem transport_error_passthrough :
    (∀ (s : XPackSqlQueryService)
      (unmarshal : String → XPackSqlQueryResponse × Option GoErr)
      (body : Body) (r : HttpResponse) (e : GoErr),
      s.Source = (some body, none) →
      s.client.performRequest
        { method := "POST", path := "/_sql",
          params := (s.buildURL).2.1, body := some body,
          headers := s.headers } = (r, some e) →
      s.Do unmarshal = (none, some e)) ∧
    (∀ (t : XPackSqlTranslateService) (body : Body) (r : HttpResponse)
      (e : GoErr),
      t.Source = (some body, none) →
      t.client.performRequest
        { method := "POST", path := "/_sql/translate",
          params := (t.buildURL).2.1, body := some body,
          headers := t.headers } = (r, some e) →
      t.Do = ("", some e)) := by
  constructor
  · intro s u body r e hsrc hperf
    simp only [queryDo_eq, hsrc, hperf]
  · intro t body r e hsrc hperf
    simp only [translateDo_eq, hsrc, hperf]

/-- Witness for C8: services whose executor always fails with
"transport down" surface exactly that error from `Do`. -/
theorem transport_error_passthrough_witness :
    qTransport.Do unmarshalOk = (none, some "transport down") ∧
    tTransport.Do = ("", some "transport down") :=
  ⟨transport_error_passthrough.1 qTransport unmarshalOk
      [("query", Val.str "SELECT 1")] ⟨""⟩ "transport down" rfl rfl,
    transport_error_passthrough.2 tTransport
      [("query", Val.str "SELECT 1")] ⟨""⟩ "transport down" rfl rfl⟩

/-- C9: if the filter-serialization part of the build is reached and
the attached predicates split as successful ones, then a failing one,
then arbitrary later ones, `Source` returns no body and exactly the
first failing predicate's error, whatever the later predicates are —
so the result never depends on predicates after the failing one. -/
theorem filter_error_short_circuit :
    (∀ (s : XPackSqlQueryService) (pre post : List Query) (bad : Query)
      (e : GoErr),
      s.cursor.length = 0 → 0 < s.sql.length →
      s.filterClauses = pre ++ bad :: post →
      (∀ q ∈ pre, q.srcErr = none) → bad.srcErr = some e →
      s.Source = (none, some e)) ∧
    (∀ (t : XPackSqlTranslateService) (pre post : List Query)
      (bad : Query) (e : GoErr),
      0 < t.sql.length →
      t.filterClauses = pre ++ bad :: post →
      (∀ q ∈ pre, q.srcErr = none) → bad.srcErr = some e →
      t.Source = (none, some e)) :=
  ⟨fun s pre post bad e hc hq hf hpre hbad =>
      querySource_filter_err s pre post bad e hc hq hf
        hpre hbad,
    fun t pre post bad e hq hf hpre hbad =>
      translateSource_filter_err t pre post bad e hq hf
        hpre hbad⟩

/-- Witness for C9: with a good, a broken and a later (also failing)
predicate attached, both services report the broken predicate's error,
not the later one's. -/
theorem filter_error_short_circuit_witness :
    qShortCircuit.Source = (none, some "filter boom") ∧
    tShortCircuit.Source = (none, some "filter boom") :=
  ⟨filter_error_short_circuit.1 qShortCircuit [filterOk] [filterLater]
      filterBroken "filter boom" rfl (by decide) rfl (by decide) rfl,
    filter_error_short_circuit.2 tShortCircuit [filterOk] [filterLater]
      filterBroken "filter boom" (by decide) rfl (by decide) rfl⟩

/-- C10: the translate service's query-string parameters never contain
a `format` parameter; `pretty`, `human` and `error_trace` are present
exactly when their flags are set (with the printed boolean), the
`filter_path` parameter exactly when the list is non-empty (with the
comma-joined list), and no other parameter occurs. -/
theorem translate_no_format : ∀ (t : XPackSqlTranslateService),
    paramsGet (t.buildURL).2.1 "format" = none ∧
    paramsGet (t.buildURL).2.1 "pretty" = (t.pretty).map goBoolString ∧
    paramsGet (t.buildURL).2.1 "human" = (t.human).map goBoolString ∧
    paramsGet (t.buildURL).2.1 "error_trace" =
      (t.errorTrace).map goBoolString ∧
    paramsGet (t.buildURL).2.1 "filter_path" =
      (if 0 < t.filterPath.length
        then some (String.intercalate "," t.filterPath) else none) ∧
    ∀ p ∈ (t.buildURL).2.1,
      p.1 = "pretty" ∨ p.1 = "human" ∨ p.1 = "error_trace" ∨
      p.1 = "filter_path" := by
  intro t
  cases hp : t.pretty <;> cases hh : t.human <;> cases he : t.errorTrace
    <;> by_cases hf : 0 < t.filterPath.length <;>
    simp [XPackSqlTranslateService.buildURL, paramsSet, paramsGet,
      hp, hh, he, hf]

/-- Witness for C10: a translate service with `pretty` and a response
filter set sends no `format` parameter and prints `pretty` as "true". -/
theorem translate_no_format_witness :
    paramsGet (tParamsEx.buildURL).2.1 "format" = none ∧
    paramsGet (tParamsEx.buildURL).2.1 "pretty" = some "true" :=
  ⟨(translate_no_format tParamsEx).1, (translate_no_format tParamsEx).2.1⟩

end Elastic
